import Mathlib

/-!
Shallow embedding of the Doc Zaddy Diagnosis Request Client.

Sources: `src/unnamed/part_000` (React component `App` whose API base is
hardcoded to a local address) and `src/doc-zaddy-ui/src/App.js` (the same
component with an environment-configurable API base and a remote fallback).
Both define the submit handler `handleDiagnose`; their bodies are identical
except that the configurable variant contains a stray expression statement
consisting of the bare identifier `s` directly after
`setError("Please enter at least one symptom.");`, which throws an uncaught
ReferenceError on the empty-token path after the error state is already set.

Strings are modelled as Lean `String` (a list of characters), JSON values as
an inductive `Json` with rational numbers, and the asynchronous `fetch`
round trip as a value of an `Outcome` type the handler consumes.  A run of
the handler yields the final view state, the list of issued requests, the
value of the `loading` flag at the moment a request was issued, and whether
an exception escaped the handler.
-/

/-- Code points of the characters matched by the JavaScript regex class `\s`
(ECMAScript WhiteSpace together with LineTerminator); the same set is removed
from both ends of a string by `String.prototype.trim`. -/
def jsWhitespaceCodes : List Nat :=
  [0x09, 0x0A, 0x0B, 0x0C, 0x0D, 0x20, 0xA0, 0x1680,
   0x2000, 0x2001, 0x2002, 0x2003, 0x2004, 0x2005, 0x2006, 0x2007,
   0x2008, 0x2009, 0x200A, 0x2028, 0x2029, 0x202F, 0x205F, 0x3000, 0xFEFF]

/-- Whether a character is matched by the regex class `\s`. -/
def isJsWhitespace (c : Char) : Bool := jsWhitespaceCodes.contains c.toNat

/-- A character consumed by a separator match of the split regex `/\s+|,+/`:
whitespace or comma. -/
def isSepChar (c : Char) : Bool := isJsWhitespace c || c == ','

/-- Model of `String.prototype.trim` on a character list: remove leading and
trailing JavaScript whitespace. -/
def jsTrim (l : List Char) : List Char :=
  ((l.dropWhile isJsWhitespace).reverse.dropWhile isJsWhitespace).reverse

/-- Scanner mode for `symptoms.split(/\s+|,+/)`: either building up a piece
(characters kept in reverse order) or inside a maximal separator run matched
by the alternative `\s+` respectively `,+`.  The two separator kinds are kept
apart because the regex matches a maximal run of one kind at a time: in a
mixed run such as a comma followed by a space the engine produces two
adjacent separator matches with an empty piece between them. -/
inductive SplitMode
  | piece : List Char → SplitMode
  | sepWs : SplitMode
  | sepComma : SplitMode

/-- State of the split scanner: completed pieces (most recent first) and the
current mode. -/
structure SplitState where
  done : List (List Char)
  mode : SplitMode

/-- One step of the split scanner, consuming a single character.  This is the
executable model of how `String.prototype.split` with regex `/\s+|,+/` walks
the string: any whitespace character begins or continues a `\s+` match, any
comma begins or continues a `,+` match, a kind change ends one separator
match and begins another (yielding an empty piece), and any other character
extends the current piece. -/
def splitStep (st : SplitState) (c : Char) : SplitState :=
  match st.mode with
  | SplitMode.piece acc =>
    if isJsWhitespace c then { done := acc.reverse :: st.done, mode := SplitMode.sepWs }
    else if c == ',' then { done := acc.reverse :: st.done, mode := SplitMode.sepComma }
    else { st with mode := SplitMode.piece (c :: acc) }
  | SplitMode.sepWs =>
    if isJsWhitespace c then st
    else if c == ',' then { done := [] :: st.done, mode := SplitMode.sepComma }
    else { st with mode := SplitMode.piece [c] }
  | SplitMode.sepComma =>
    if c == ',' then st
    else if isJsWhitespace c then { done := [] :: st.done, mode := SplitMode.sepWs }
    else { st with mode := SplitMode.piece [c] }

/-- Finish the split scan: a trailing separator yields a final empty piece,
mirroring JavaScript, where for instance splitting the string `"a,"` on the
regex gives `["a", ""]` and splitting `""` gives `[""]`. -/
def splitFinish (st : SplitState) : List (List Char) :=
  match st.mode with
  | SplitMode.piece acc => (acc.reverse :: st.done).reverse
  | _ => ([] :: st.done).reverse

/-- The model of `l.split(/\s+|,+/)` on a character list. -/
def jsSplit (l : List Char) : List (List Char) :=
  splitFinish (List.foldl splitStep { done := [], mode := SplitMode.piece [] } l)

/-- The token pipeline of `handleDiagnose` (both variants):
`symptoms.split(/\s+|,+/).map((t) => t.trim()).filter(Boolean)`.
`filter(Boolean)` keeps exactly the non-empty strings. -/
def tokenize (s : String) : List String :=
  ((((jsSplit s.data).map jsTrim).filter (fun p => decide (p ≠ []))).map
    (fun p => String.mk p))

/-- Reference splitter, modelled from the spec (§4.1 step 2: "split on
one-or-more whitespace characters or one-or-more comma characters").  It cuts
the input at every single separator character; since the spec drops empty
pieces afterwards, cutting at every separator character produces the same
final tokens as cutting at maximal separator runs. -/
def specSplit : List Char → List (List Char)
  | [] => [[]]
  | c :: rest =>
    if isSepChar c then [] :: specSplit rest
    else
      match specSplit rest with
      | [] => [[c]]
      | p :: ps => (c :: p) :: ps

/-- Reference tokenizer following the spec's words: split, trim each piece,
drop empty pieces. -/
def specTokenize (s : String) : List String :=
  ((((specSplit s.data).map jsTrim).filter (fun p => decide (p ≠ []))).map
    (fun p => String.mk p))

/-- The partial piece carried by a scanner mode, in reading order. -/
def SplitMode.acc : SplitMode → List Char
  | SplitMode.piece a => a.reverse
  | _ => []

/-- Prepend a pending prefix onto the first piece of a piece list. -/
def glue (acc : List Char) : List (List Char) → List (List Char)
  | [] => [acc]
  | p :: ps => (acc ++ p) :: ps

/-- JSON values, as produced by a successful `resp.json()`: the parse result
of a JSON text (numbers as exact rationals). -/
inductive Json
  | null : Json
  | bool : Bool → Json
  | num : ℚ → Json
  | str : String → Json
  | arr : List Json → Json
  | obj : List (String × Json) → Json

/-- JavaScript truthiness of a JSON value: `null`, `false`, `0` and the empty
string are falsy; every array and object is truthy. -/
def jsTruthy : Json → Bool
  | Json.null => false
  | Json.bool b => b
  | Json.num q => decide (q ≠ 0)
  | Json.str s => decide (s ≠ "")
  | Json.arr _ => true
  | Json.obj _ => true

/-- Truthiness of an optional value: JavaScript `undefined` is falsy. -/
def jsTruthyOpt : Option Json → Bool
  | none => false
  | some v => jsTruthy v

/-- First binding of a key in an object's field list.  `JSON.parse` never
produces duplicate keys, so the lookup order is immaterial for parse
results. -/
def lookupField : List (String × Json) → String → Option Json
  | [], _ => none
  | (k, v) :: fields, key => if k == key then some v else lookupField fields key

/-- JavaScript member access `v.key` on a parsed JSON value: throws a
TypeError on `null` (modelled as `Except.error`), returns the field value on
an object that has the key, and `undefined` (modelled as `none`) otherwise. -/
def jsGet : Json → String → Except String (Option Json)
  | Json.null, _ => Except.error "TypeError: cannot read properties of null"
  | Json.obj fields, key => Except.ok (lookupField fields key)
  | _, _ => Except.ok none

/-- Hex digit used by `JSON.stringify` control-character escapes. -/
def hexDigit (n : Nat) : Char :=
  if n < 10 then Char.ofNat (48 + n) else Char.ofNat (87 + n)

/-- Escaping of one character inside a `JSON.stringify`ed string literal. -/
def jsonEscapeChar (c : Char) : List Char :=
  if c = '\"' then ['\\', '\"']
  else if c = '\\' then ['\\', '\\']
  else if c = Char.ofNat 8 then ['\\', 'b']
  else if c = '\t' then ['\\', 't']
  else if c = '\n' then ['\\', 'n']
  else if c = Char.ofNat 12 then ['\\', 'f']
  else if c = Char.ofNat 13 then ['\\', 'r']
  else if c.toNat < 32 then
    ['\\', 'u', '0', '0', hexDigit (c.toNat / 16), hexDigit (c.toNat % 16)]
  else [c]

/-- A string as serialized by `JSON.stringify`, quotes included. -/
def jsonQuote (s : String) : String :=
  "\"" ++ String.mk (s.data.map jsonEscapeChar).flatten ++ "\""

/-- The request body `JSON.stringify({ symptoms: tokens })`. -/
def stringifySymptoms (tokens : List String) : String :=
  "\x7b\"symptoms\":[" ++ String.intercalate "," (tokens.map jsonQuote) ++ "]\x7d"

/-- The component's view state: the four `useState` hooks of `App`.
`results` and `error` hold whatever JavaScript value was last stored
(`setResults(data.results)` stores the field verbatim, whatever it is), so
both are modelled as `Json`. -/
structure ViewState where
  symptoms : String
  results : Json
  loading : Bool
  error : Json

/-- The initial view state: `useState("")`, `useState([])`, `useState(false)`,
`useState("")`. -/
def initialState : ViewState :=
  { symptoms := "", results := Json.arr [], loading := false, error := Json.str "" }

/-- One outbound HTTP request as issued by `fetch`. -/
structure Request where
  url : String
  method : String
  contentType : String
  body : String

/-- One simulated outcome of the `fetch` round trip:
either the promise rejects (network/transport failure), or a response
arrives with its `ok` flag, status code, status text, the result of reading
the body as text (`none` when reading rejects), and the result of parsing
the body as JSON (`none` when parsing rejects). -/
inductive Outcome
  | netError : Outcome
  | resp : Bool → Nat → String → Option String → Option Json → Outcome

/-- Everything observable about one run of the submit handler: the final view
state, the requests issued, the `loading` flag at the moment a request was
issued (`none` when no request was made), and whether an exception escaped
the handler. -/
structure RunResult where
  finalState : ViewState
  requests : List Request
  loadingAtCall : Option Bool
  uncaught : Bool

/-- The hardcoded API base of `src/unnamed/part_000`. -/
def API_BASE : String := "http://127.0.0.1:8001"

/-- The API base of `src/doc-zaddy-ui/src/App.js`:
`process.env.REACT_APP_API_URL || "https://doc-zaddy.onrender.com"`, the
environment value modelled as `Option String` and `||` using JavaScript
truthiness, so an unset or empty variable falls back to the remote URL. -/
def apiBaseEnv (envValue : Option String) : String :=
  match envValue with
  | some v => if v = "" then "https://doc-zaddy.onrender.com" else v
  | none => "https://doc-zaddy.onrender.com"

/-- The submit handler `handleDiagnose` of `src/unnamed/part_000`, line by
line: clear error and results; tokenize; on zero tokens set the validation
error and return; otherwise set `loading`, `fetch` a POST to
`apiBase + "/api/diagnose"` with body `JSON.stringify({ symptoms: tokens })`,
throw on `!resp.ok` (with a message built from the status and the body text,
falling back to the status text when the body cannot be read), parse the
body as JSON, store a truthy `results` field verbatim, otherwise set error
to a truthy `message` field or the fixed fallback; any throw inside the
`try` is caught, logged, and mapped to the fixed generic error message; the
`finally` clause always clears `loading`. -/
def handleDiagnose (apiBase : String) (o : Outcome) (s0 : ViewState) : RunResult :=
  let s1 : ViewState := { s0 with error := Json.str "", results := Json.arr [] }
  let tokens := tokenize s0.symptoms
  if tokens.length = 0 then
    { finalState := { s1 with error := Json.str "Please enter at least one symptom." },
      requests := [], loadingAtCall := none, uncaught := false }
  else
    let s2 : ViewState := { s1 with loading := true }
    let req : Request :=
      { url := apiBase ++ "/api/diagnose", method := "POST",
        contentType := "application/json", body := stringifySymptoms tokens }
    let attempt : Except String ViewState :=
      match o with
      | Outcome.netError => Except.error "TypeError: Failed to fetch"
      | Outcome.resp ok status statusText textBody jsonBody =>
        if !ok then
          Except.error ("API error " ++ toString status ++ ": " ++ textBody.getD statusText)
        else
          match jsonBody with
          | none => Except.error "SyntaxError: Unexpected token in JSON"
          | some data =>
            match jsGet data "results" with
            | Except.error e => Except.error e
            | Except.ok r =>
              if jsTruthyOpt r then
                Except.ok { s2 with results := r.getD Json.null }
              else
                match jsGet data "message" with
                | Except.error e => Except.error e
                | Except.ok m =>
                  Except.ok { s2 with error :=
                    (if jsTruthyOpt m then m.getD Json.null
                     else Json.str "No results returned") }
    let s3 : ViewState :=
      match attempt with
      | Except.ok s => s
      | Except.error _ =>
        { s2 with error := Json.str "Failed to fetch diagnosis. Please check API connection." }
    { finalState := { s3 with loading := false },
      requests := [req], loadingAtCall := some s2.loading, uncaught := false }

/-- The submit handler `handleDiagnose` of `src/doc-zaddy-ui/src/App.js`.
Its body is identical to the one in `src/unnamed/part_000` except for the
stray statement `s` directly after
`setError("Please enter at least one symptom.");` (line 23): on the
empty-token path the error state is set and then evaluating the undefined
identifier `s` throws a ReferenceError that escapes the handler (the `return`
is never reached, and no `try` encloses this point), recorded here as
`uncaught := true`.  No network call is made on that path either way. -/
def handleDiagnoseEnv (apiBase : String) (o : Outcome) (s0 : ViewState) : RunResult :=
  let s1 : ViewState := { s0 with error := Json.str "", results := Json.arr [] }
  let tokens := tokenize s0.symptoms
  if tokens.length = 0 then
    { finalState := { s1 with error := Json.str "Please enter at least one symptom." },
      requests := [], loadingAtCall := none, uncaught := true }
  else
    let s2 : ViewState := { s1 with loading := true }
    let req : Request :=
      { url := apiBase ++ "/api/diagnose", method := "POST",
        contentType := "application/json", body := stringifySymptoms tokens }
    let attempt : Except String ViewState :=
      match o with
      | Outcome.netError => Except.error "TypeError: Failed to fetch"
      | Outcome.resp ok status statusText textBody jsonBody =>
        if !ok then
          Except.error ("API error " ++ toString status ++ ": " ++ textBody.getD statusText)
        else
          match jsonBody with
          | none => Except.error "SyntaxError: Unexpected token in JSON"
          | some data =>
            match jsGet data "results" with
            | Except.error e => Except.error e
            | Except.ok r =>
              if jsTruthyOpt r then
                Except.ok { s2 with results := r.getD Json.null }
              else
                match jsGet data "message" with
                | Except.error e => Except.error e
                | Except.ok m =>
                  Except.ok { s2 with error :=
                    (if jsTruthyOpt m then m.getD Json.null
                     else Json.str "No results returned") }
    let s3 : ViewState :=
      match attempt with
      | Except.ok s => s
      | Except.error _ =>
        { s2 with error := Json.str "Failed to fetch diagnosis. Please check API connection." }
    { finalState := { s3 with loading := false },
      requests := [req], loadingAtCall := some s2.loading, uncaught := false }

/-- JavaScript `Math.round`: the floor of the argument plus one half (rounds
half-up, ties toward positive infinity). -/
def mathRound (q : ℚ) : ℤ := (q + 1 / 2).floor

/-- The percentage rendered for one result entry:
`Math.round((r.confidence || 0) * 100)`.  An absent `confidence` is
`undefined`, which `|| 0` replaces by `0`; on a present number `|| 0` only
replaces `0` by `0`, so it is `confidence.getD 0`. -/
def displayPercent (confidence : Option ℚ) : ℤ :=
  mathRound (confidence.getD 0 * 100)

/-- The rendered percentage text, as interpolated into the entry's line. -/
def percentText (confidence : Option ℚ) : String :=
  toString (displayPercent confidence) ++ "%"



/-- A view state whose stored input tokenizes to the single symptom
`"fever"`; used as a concrete starting point for witnesses. -/
def feverState : ViewState := { initialState with symptoms := "fever" }

/-- A view state whose stored input tokenizes to no symptoms at all. -/
def blankState : ViewState := { initialState with symptoms := " ,,, " }

/-- The parsed body of a response whose `results` member is present but
`null` (in JSON text, with braces: a single field `results` bound to
`null`). -/
def resultsNullBody : Json := Json.obj [("results", Json.null)]

/-- The parsed body of a response whose `message` member is present but is
the empty string. -/
def emptyMessageBody : Json := Json.obj [("message", Json.str "")]

/-- The parsed body of the spec's example response: one result entry for
`common_cold` with `matched` 2, `total` 3 and `confidence` 0.67. -/
def specResultsValue : Json :=
  Json.arr [Json.obj
    [("disease", Json.str "common_cold"), ("matched", Json.num 2),
     ("total", Json.num 3), ("confidence", Json.num (67 / 100))]]

/-- The spec's example success body: an object with the single field
`results` bound to `specResultsValue`. -/
def specSuccessBody : Json := Json.obj [("results", specResultsValue)]

/-- The parsed body of the spec's example no-match response. -/
def noMatchBody : Json := Json.obj [("message", Json.str "no match")]

example : tokenize "" = [] := by decide
example : tokenize "   " = [] := by decide
example : tokenize ",,," = [] := by decide
example : tokenize " ,a, b" = ["a", "b"] := by decide
example : stringifySymptoms ["fever", "cough"] =
    "\x7b\"symptoms\":[\"fever\",\"cough\"]\x7d" := by decide

theorem tokens_length_ne_zero {s : String} (h : tokenize s ≠ []) :
    ¬ (tokenize s).length = 0 := by
  simpa [List.length_eq_zero] using h

/-- C1: the two duplicated source variants of the submit handler are
functionally identical: called with the same API base address, for every
simulated network outcome and every starting view state (in particular every
input string) they produce the same final view state (error message, result
set, loading flag, and the untouched input text) and issue the same network
requests; only the API base address they close over differs between the two
files. -/
theorem variants_same_view_state_and_requests (base : String) (o : Outcome)
    (s0 : ViewState) :
    (handleDiagnose base o s0).finalState = (handleDiagnoseEnv base o s0).finalState
    ∧ (handleDiagnose base o s0).requests = (handleDiagnoseEnv base o s0).requests := by
  unfold handleDiagnose handleDiagnoseEnv
  by_cases h : (tokenize s0.symptoms).length = 0 <;> simp [h]

/-- C2: whenever the stored input tokenizes to zero symptoms, both variants
of the submit handler set the error to exactly
"Please enter at least one symptom." and issue no network request. -/
theorem empty_tokens_validation_error_no_request (base : String) (o : Outcome)
    (s0 : ViewState) (h : tokenize s0.symptoms = []) :
    ((handleDiagnose base o s0).finalState.error
        = Json.str "Please enter at least one symptom."
      ∧ (handleDiagnose base o s0).requests = [])
    ∧ ((handleDiagnoseEnv base o s0).finalState.error
        = Json.str "Please enter at least one symptom."
      ∧ (handleDiagnoseEnv base o s0).requests = []) := by
  unfold handleDiagnose handleDiagnoseEnv
  simp [h]

/-- Witness for C2 at the concrete input " ,,, ". -/
theorem empty_tokens_validation_error_no_request_witness :
    ((handleDiagnose API_BASE Outcome.netError blankState).finalState.error
        = Json.str "Please enter at least one symptom."
      ∧ (handleDiagnose API_BASE Outcome.netError blankState).requests = [])
    ∧ ((handleDiagnoseEnv API_BASE Outcome.netError blankState).finalState.error
        = Json.str "Please enter at least one symptom."
      ∧ (handleDiagnoseEnv API_BASE Outcome.netError blankState).requests = []) :=
  empty_tokens_validation_error_no_request API_BASE Outcome.netError blankState (by decide)

/-- C10: neither variant of the submit handler ever modifies the stored raw
input text: whatever the outcome (validation failure, success, or any
request failure), the symptoms state after the run equals its value at the
start. -/
theorem submit_preserves_symptoms (base : String) (o : Outcome) (s0 : ViewState) :
    (handleDiagnose base o s0).finalState.symptoms = s0.symptoms
    ∧ (handleDiagnoseEnv base o s0).finalState.symptoms = s0.symptoms := by
  unfold handleDiagnose handleDiagnoseEnv
  by_cases h : (tokenize s0.symptoms).length = 0
  · simp [h]
  · rcases o with _ | ⟨ok, status, stx, tb, jb⟩
    · simp [h]
    · cases ok
      · simp [h]
      · rcases jb with _ | data
        · simp [h]
        · rcases hg : jsGet data "results" with e | r
          · simp [h, hg]
          · by_cases ht : jsTruthyOpt r
            · simp [h, hg, ht]
            · rcases hm : jsGet data "message" with e | m
              · simp [h, hg, ht, hm]
              · simp [h, hg, ht, hm]

/-- C7: on every submit invocation that passes validation, the `loading`
flag is true at the moment the network request is issued and is false again
once the run resolves, on every path (success, handled failure, or thrown
failure), for both variants. -/
theorem loading_true_during_call_false_after (base : String) (o : Outcome)
    (s0 : ViewState) (h : tokenize s0.symptoms ≠ []) :
    ((handleDiagnose base o s0).loadingAtCall = some true
      ∧ (handleDiagnose base o s0).finalState.loading = false)
    ∧ ((handleDiagnoseEnv base o s0).loadingAtCall = some true
      ∧ (handleDiagnoseEnv base o s0).finalState.loading = false) := by
  unfold handleDiagnose handleDiagnoseEnv
  simp [tokens_length_ne_zero h]

/-- Witness for C7 at the concrete input "fever" and a network failure. -/
theorem loading_true_during_call_false_after_witness :
    ((handleDiagnose API_BASE Outcome.netError feverState).loadingAtCall = some true
      ∧ (handleDiagnose API_BASE Outcome.netError feverState).finalState.loading = false)
    ∧ ((handleDiagnoseEnv API_BASE Outcome.netError feverState).loadingAtCall = some true
      ∧ (handleDiagnoseEnv API_BASE Outcome.netError feverState).finalState.loading = false) :=
  loading_true_during_call_false_after API_BASE Outcome.netError feverState (by decide)

theorem tokenize_mem_ne_empty {s t : String} (ht : t ∈ tokenize s) : t ≠ "" := by
  unfold tokenize at ht
  rcases List.mem_map.mp ht with ⟨p, hp, rfl⟩
  have hne : p ≠ [] := of_decide_eq_true (List.mem_filter.mp hp).2
  intro he
  exact hne (congrArg String.data he)

/-- C8: a submit invocation that passes validation issues exactly one
request: a POST to `/api/diagnose` under the configured base address with a
JSON content type and body `JSON.stringify` of an object with the single
field `symptoms` holding the ordered token list, which has length at least
one and contains no empty string; no retries occur (the request list of a
run has exactly one element). -/
theorem single_post_request_shape (base : String) (o : Outcome)
    (s0 : ViewState) (h : tokenize s0.symptoms ≠ []) :
    (handleDiagnose base o s0).requests
        = [{ url := base ++ "/api/diagnose", method := "POST",
             contentType := "application/json",
             body := stringifySymptoms (tokenize s0.symptoms) }]
      ∧ 1 ≤ (tokenize s0.symptoms).length
      ∧ ∀ t ∈ tokenize s0.symptoms, t ≠ "" := by
  refine ⟨?_, List.length_pos.mpr h, fun t ht => tokenize_mem_ne_empty ht⟩
  unfold handleDiagnose
  simp [tokens_length_ne_zero h]

/-- Witness for C8 at the concrete input "fever". -/
theorem single_post_request_shape_witness :
    (handleDiagnose API_BASE Outcome.netError feverState).requests
        = [{ url := API_BASE ++ "/api/diagnose", method := "POST",
             contentType := "application/json",
             body := stringifySymptoms (tokenize feverState.symptoms) }]
      ∧ 1 ≤ (tokenize feverState.symptoms).length
      ∧ ∀ t ∈ tokenize feverState.symptoms, t ≠ "" :=
  single_post_request_shape API_BASE Outcome.netError feverState (by decide)

/-- C6: for every thrown failure during a validated submit — network or
transport failure, non-success HTTP status, or JSON parse failure — both
variants set the error to exactly the fixed generic message
"Failed to fetch diagnosis. Please check API connection." (the descriptive
cause is only carried in the thrown value, never stored in view state), and
the result set is empty afterwards. -/
theorem thrown_failure_generic_error (base : String) (o : Outcome)
    (s0 : ViewState) (htok : tokenize s0.symptoms ≠ [])
    (hfail : o = Outcome.netError
      ∨ (∃ status stx tb jb, o = Outcome.resp false status stx tb jb)
      ∨ (∃ status stx tb, o = Outcome.resp true status stx tb none)) :
    ((handleDiagnose base o s0).finalState.error
        = Json.str "Failed to fetch diagnosis. Please check API connection."
      ∧ (handleDiagnose base o s0).finalState.results = Json.arr [])
    ∧ ((handleDiagnoseEnv base o s0).finalState.error
        = Json.str "Failed to fetch diagnosis. Please check API connection."
      ∧ (handleDiagnoseEnv base o s0).finalState.results = Json.arr []) := by
  have hlen := tokens_length_ne_zero htok
  rcases hfail with rfl | ⟨status, stx, tb, jb, rfl⟩ | ⟨status, stx, tb, rfl⟩ <;>
    · unfold handleDiagnose handleDiagnoseEnv
      simp [hlen]

/-- Witness for C6 at the concrete input "fever" and a simulated 500
response. -/
theorem thrown_failure_generic_error_witness :
    ((handleDiagnose API_BASE (Outcome.resp false 500 "Internal Server Error" none none)
        feverState).finalState.error
        = Json.str "Failed to fetch diagnosis. Please check API connection."
      ∧ (handleDiagnose API_BASE (Outcome.resp false 500 "Internal Server Error" none none)
          feverState).finalState.results = Json.arr [])
    ∧ ((handleDiagnoseEnv API_BASE (Outcome.resp false 500 "Internal Server Error" none none)
          feverState).finalState.error
        = Json.str "Failed to fetch diagnosis. Please check API connection."
      ∧ (handleDiagnoseEnv API_BASE (Outcome.resp false 500 "Internal Server Error" none none)
          feverState).finalState.results = Json.arr []) :=
  thrown_failure_generic_error API_BASE _ feverState (by decide)
    (Or.inr (Or.inl ⟨500, "Internal Server Error", none, none, rfl⟩))

/-- C4 (counterexample): the claim fails on the body with the single field
`results` bound to `null`.  That body parses to a JSON object that has a
`results` field, so the claim predicts that after a success response the
result set equals `null` (the field's value, verbatim) and the error is
empty; the code instead tests `data.results` for JavaScript truthiness,
takes the else branch, leaves the result set empty and sets the error to
"No results returned". -/
theorem results_field_not_passed_through_when_falsy :
    ¬ ((handleDiagnose API_BASE (Outcome.resp true 200 "OK" none (some resultsNullBody))
          feverState).finalState.results = Json.null
      ∧ (handleDiagnose API_BASE (Outcome.resp true 200 "OK" none (some resultsNullBody))
          feverState).finalState.error = Json.str "") := by
  intro hc
  have h2 : Json.str "No results returned" = Json.str "" := hc.2
  have h3 : "No results returned" = "" := by injection h2
  exact absurd h3 (by decide)

/-- C4 (amended): for every success-status response whose body parses to a
JSON object whose `results` field is present with a truthy value (so not
`null`, `false`, `0` or the empty string), both variants replace the result
set with that field's value verbatim — no reshaping, no sorting, the very
value is stored — and leave the error message empty. -/
theorem truthy_results_passed_through_verbatim (base : String)
    (status : Nat) (stx : String) (tb : Option String) (data v : Json)
    (s0 : ViewState) (htok : tokenize s0.symptoms ≠ [])
    (hres : jsGet data "results" = Except.ok (some v))
    (htr : jsTruthy v = true) :
    ((handleDiagnose base (Outcome.resp true status stx tb (some data)) s0).finalState.results
        = v
      ∧ (handleDiagnose base (Outcome.resp true status stx tb (some data)) s0).finalState.error
        = Json.str "")
    ∧ ((handleDiagnoseEnv base (Outcome.resp true status stx tb (some data)) s0).finalState.results
        = v
      ∧ (handleDiagnoseEnv base (Outcome.resp true status stx tb (some data)) s0).finalState.error
        = Json.str "") := by
  have hlen := tokens_length_ne_zero htok
  unfold handleDiagnose handleDiagnoseEnv
  simp [hlen, hres, jsTruthyOpt, htr]

/-- Witness for C4 at the spec's own example success body. -/
theorem truthy_results_passed_through_verbatim_witness :
    ((handleDiagnose API_BASE (Outcome.resp true 200 "OK" none (some specSuccessBody))
        feverState).finalState.results = specResultsValue
      ∧ (handleDiagnose API_BASE (Outcome.resp true 200 "OK" none (some specSuccessBody))
          feverState).finalState.error = Json.str "")
    ∧ ((handleDiagnoseEnv API_BASE (Outcome.resp true 200 "OK" none (some specSuccessBody))
          feverState).finalState.results = specResultsValue
      ∧ (handleDiagnoseEnv API_BASE (Outcome.resp true 200 "OK" none (some specSuccessBody))
          feverState).finalState.error = Json.str "") :=
  truthy_results_passed_through_verbatim API_BASE 200 "OK" none specSuccessBody
    specResultsValue feverState (by decide) rfl rfl

/-- C5 (counterexample): the claim fails on the body with the single field
`message` bound to the empty string.  That body parses to a JSON object
without a `results` field whose `message` field is present, so the claim
predicts the error becomes that field's value, the empty string; the code
instead evaluates `data.message || "No results returned"`, and since the
empty string is falsy it sets the error to the fallback. -/
theorem message_field_not_shown_when_falsy :
    ¬ ((handleDiagnose API_BASE (Outcome.resp true 200 "OK" none (some emptyMessageBody))
          feverState).finalState.error = Json.str "") := by
  intro hc
  have h2 : Json.str "No results returned" = Json.str "" := hc
  have h3 : "No results returned" = "" := by injection h2
  exact absurd h3 (by decide)

/-- C5 (amended): for every success-status response whose body parses to a
JSON object without a `results` field, both variants set the error to the
object's `message` field when that field is present with a truthy value (in
particular a non-empty string), and to the fixed fallback
"No results returned" otherwise (absent or falsy `message`); the result set
is empty afterwards. -/
theorem message_or_fallback_when_no_results (base : String)
    (status : Nat) (stx : String) (tb : Option String) (data : Json)
    (mOpt : Option Json) (s0 : ViewState) (htok : tokenize s0.symptoms ≠ [])
    (hres : jsGet data "results" = Except.ok none)
    (hmsg : jsGet data "message" = Except.ok mOpt) :
    ((handleDiagnose base (Outcome.resp true status stx tb (some data)) s0).finalState.error
        = (if jsTruthyOpt mOpt then mOpt.getD Json.null else Json.str "No results returned")
      ∧ (handleDiagnose base (Outcome.resp true status stx tb (some data)) s0).finalState.results
        = Json.arr [])
    ∧ ((handleDiagnoseEnv base (Outcome.resp true status stx tb (some data)) s0).finalState.error
        = (if jsTruthyOpt mOpt then mOpt.getD Json.null else Json.str "No results returned")
      ∧ (handleDiagnoseEnv base (Outcome.resp true status stx tb (some data)) s0).finalState.results
        = Json.arr []) := by
  have hlen := tokens_length_ne_zero htok
  unfold handleDiagnose handleDiagnoseEnv
  by_cases ht : jsTruthyOpt mOpt <;> simp [hlen, hres, hmsg, jsTruthyOpt, ht]

/-- Witness for C5 at the spec's own example no-match body. -/
theorem message_or_fallback_when_no_results_witness :
    ((handleDiagnose API_BASE (Outcome.resp true 200 "OK" none (some noMatchBody))
        feverState).finalState.error
        = (if jsTruthyOpt (some (Json.str "no match")) then
            (some (Json.str "no match")).getD Json.null
           else Json.str "No results returned")
      ∧ (handleDiagnose API_BASE (Outcome.resp true 200 "OK" none (some noMatchBody))
          feverState).finalState.results = Json.arr [])
    ∧ ((handleDiagnoseEnv API_BASE (Outcome.resp true 200 "OK" none (some noMatchBody))
          feverState).finalState.error
        = (if jsTruthyOpt (some (Json.str "no match")) then
            (some (Json.str "no match")).getD Json.null
           else Json.str "No results returned")
      ∧ (handleDiagnoseEnv API_BASE (Outcome.resp true 200 "OK" none (some noMatchBody))
          feverState).finalState.results = Json.arr []) :=
  message_or_fallback_when_no_results API_BASE 200 "OK" none noMatchBody
    (some (Json.str "no match")) feverState (by decide) rfl rfl

/-- C9: the rendered percentage is the confidence times 100 rounded half-up
to the nearest integer — the displayed integer n satisfies
n - 1/2 ≤ confidence · 100 < n + 1/2, so it is the nearest integer with ties
rounded up — the confidence 0.666 renders as "67%", and an absent confidence
renders as "0%". -/
theorem display_percent_rounds_half_up :
    (∀ q : ℚ, ((displayPercent (some q) : ℚ) - 1 / 2 ≤ q * 100
      ∧ q * 100 < (displayPercent (some q) : ℚ) + 1 / 2))
    ∧ displayPercent (some (666 / 1000)) = 67
    ∧ percentText (some (666 / 1000)) = "67%"
    ∧ displayPercent none = 0
    ∧ percentText none = "0%" := by
  have h67 : displayPercent (some (666 / 1000)) = 67 := by
    norm_num [displayPercent, mathRound, Rat.floor]
  have h0 : displayPercent none = 0 := by
    norm_num [displayPercent, mathRound, Rat.floor]
  refine ⟨fun q => ?_, h67, ?_, h0, ?_⟩
  · have hb : displayPercent (some q) = ⌊q * 100 + 1 / 2⌋ := rfl
    have hle := Int.floor_le (q * 100 + 1 / 2)
    have hlt := Int.lt_floor_add_one (q * 100 + 1 / 2)
    rw [hb]
    constructor <;> [skip; skip] <;> push_cast at hle hlt ⊢ <;> linarith
  · unfold percentText
    rw [h67]
    rfl
  · unfold percentText
    rw [h0]
    rfl

theorem isJsWhitespace_comma : isJsWhitespace ',' = false := by decide

theorem specSplit_ne_nil (l : List Char) : specSplit l ≠ [] := by
  induction l with
  | nil => simp [specSplit]
  | cons c rest ih =>
    simp only [specSplit]
    split
    · simp
    · split <;> simp

theorem split_rel (cs : List Char) : ∀ (done : List (List Char)) (mode : SplitMode),
    (splitFinish (List.foldl splitStep { done := done, mode := mode } cs)).filter
        (fun p => decide (p ≠ []))
      = (done.reverse.filter (fun p => decide (p ≠ [])))
        ++ ((glue mode.acc (specSplit cs)).filter (fun p => decide (p ≠ []))) := by
  induction cs with
  | nil =>
    intro done mode
    cases mode <;>
      simp [splitFinish, specSplit, glue, SplitMode.acc, List.filter_append, List.filter_cons]
  | cons c rest ih =>
    intro done mode
    rw [List.foldl_cons]
    rcases hsp : specSplit rest with _ | ⟨p, ps⟩
    · exact absurd hsp (specSplit_ne_nil rest)
    cases mode with
    | piece acc =>
      by_cases hws : isJsWhitespace c
      · have hstep : splitStep { done := done, mode := SplitMode.piece acc } c
            = { done := acc.reverse :: done, mode := SplitMode.sepWs } := by
          simp [splitStep, hws]
        rw [hstep, ih]
        simp [SplitMode.acc, specSplit, isSepChar, hws, hsp, glue,
          List.filter_append, List.filter_cons]
        by_cases hacc : acc = [] <;> simp [hacc]
      · by_cases hcm : c = ','
        · have hstep : splitStep { done := done, mode := SplitMode.piece acc } c
              = { done := acc.reverse :: done, mode := SplitMode.sepComma } := by
            simp [splitStep, hws, hcm, isJsWhitespace_comma]
          rw [hstep, ih]
          simp [SplitMode.acc, specSplit, isSepChar, hws, hcm, hsp, glue,
            isJsWhitespace_comma, List.filter_append, List.filter_cons]
          by_cases hacc : acc = [] <;> simp [hacc]
        · have hstep : splitStep { done := done, mode := SplitMode.piece acc } c
              = { done := done, mode := SplitMode.piece (c :: acc) } := by
            simp [splitStep, hws, hcm, isJsWhitespace_comma]
          rw [hstep, ih]
          simp [SplitMode.acc, specSplit, isSepChar, hws, hcm, hsp, glue,
            List.filter_append, List.filter_cons]
    | sepWs =>
      by_cases hws : isJsWhitespace c
      · have hstep : splitStep { done := done, mode := SplitMode.sepWs } c
            = { done := done, mode := SplitMode.sepWs } := by
          simp [splitStep, hws]
        rw [hstep, ih]
        simp [SplitMode.acc, specSplit, isSepChar, hws, hsp, glue,
          List.filter_append, List.filter_cons]
      · by_cases hcm : c = ','
        · have hstep : splitStep { done := done, mode := SplitMode.sepWs } c
              = { done := [] :: done, mode := SplitMode.sepComma } := by
            simp [splitStep, hws, hcm, isJsWhitespace_comma]
          rw [hstep, ih]
          simp [SplitMode.acc, specSplit, isSepChar, hws, hcm, hsp, glue,
            isJsWhitespace_comma, List.filter_append, List.filter_cons]
        · have hstep : splitStep { done := done, mode := SplitMode.sepWs } c
              = { done := done, mode := SplitMode.piece [c] } := by
            simp [splitStep, hws, hcm, isJsWhitespace_comma]
          rw [hstep, ih]
          simp [SplitMode.acc, specSplit, isSepChar, hws, hcm, hsp, glue,
            List.filter_append, List.filter_cons]
    | sepComma =>
      by_cases hcm : c = ','
      · have hstep : splitStep { done := done, mode := SplitMode.sepComma } c
            = { done := done, mode := SplitMode.sepComma } := by
          simp [splitStep, hcm, isJsWhitespace_comma]
        rw [hstep, ih]
        simp [SplitMode.acc, specSplit, isSepChar, hcm, hsp, glue,
          isJsWhitespace_comma, List.filter_append, List.filter_cons]
      · by_cases hws : isJsWhitespace c
        · have hstep : splitStep { done := done, mode := SplitMode.sepComma } c
              = { done := [] :: done, mode := SplitMode.sepWs } := by
            simp [splitStep, hws, hcm, isJsWhitespace_comma]
          rw [hstep, ih]
          simp [SplitMode.acc, specSplit, isSepChar, hws, hcm, hsp, glue,
            List.filter_append, List.filter_cons]
        · have hstep : splitStep { done := done, mode := SplitMode.sepComma } c
              = { done := done, mode := SplitMode.piece [c] } := by
            simp [splitStep, hws, hcm, isJsWhitespace_comma]
          rw [hstep, ih]
          simp [SplitMode.acc, specSplit, isSepChar, hws, hcm, hsp, glue,
            List.filter_append, List.filter_cons]

theorem glue_nil_of_ne_nil {l : List (List Char)} (h : l ≠ []) : glue [] l = l := by
  cases l with
  | nil => exact absurd rfl h
  | cons p ps => simp [glue]

theorem trimFilter_eq (l : List (List Char)) :
    (l.map jsTrim).filter (fun p => decide (p ≠ []))
      = ((l.filter (fun p => decide (p ≠ []))).map jsTrim).filter
          (fun p => decide (p ≠ [])) := by
  induction l with
  | nil => rfl
  | cons p ps ih =>
    by_cases hp : p = []
    · subst hp
      simpa [jsTrim] using ih
    · simp only [List.map_cons, List.filter_cons, hp]
      by_cases h2 : jsTrim p = [] <;> simp [hp, h2] <;> simpa using ih

theorem jsSplit_filter_eq (l : List Char) :
    (jsSplit l).filter (fun p => decide (p ≠ []))
      = (specSplit l).filter (fun p => decide (p ≠ [])) := by
  have h := split_rel l [] (SplitMode.piece [])
  simpa [jsSplit, SplitMode.acc, glue_nil_of_ne_nil (specSplit_ne_nil l)] using h

theorem tokenize_eq_specTokenize (s : String) : tokenize s = specTokenize s := by
  unfold tokenize specTokenize
  rw [trimFilter_eq, jsSplit_filter_eq, ← trimFilter_eq]

theorem specSplit_all_not_sep (l : List Char) :
    ∀ p ∈ specSplit l, ∀ c ∈ p, isSepChar c = false := by
  induction l with
  | nil =>
    intro p hp c hc
    simp [specSplit] at hp
    subst hp
    simp at hc
  | cons a rest ih =>
    intro p hp c hc
    by_cases ha : isSepChar a
    · simp only [specSplit, ha, if_true] at hp
      rcases List.mem_cons.mp hp with rfl | hp2
      · simp at hc
      · exact ih p hp2 c hc
    · simp only [specSplit, ha, if_false] at hp
      rcases hq : specSplit rest with _ | ⟨q, qs⟩
      · rw [hq] at hp
        simp at hp
        subst hp
        rcases List.mem_singleton.mp hc with rfl
        simpa using ha
      · rw [hq] at hp
        rcases List.mem_cons.mp hp with rfl | hp2
        · rcases List.mem_cons.mp hc with rfl | hc2
          · simpa using ha
          · exact ih q (by rw [hq]; exact List.mem_cons_self q qs) c hc2
        · exact ih p (by rw [hq]; exact List.mem_cons_of_mem q hp2) c hc

theorem jsTrim_mem {l : List Char} {c : Char} (hc : c ∈ jsTrim l) : c ∈ l := by
  unfold jsTrim at hc
  have h1 := List.mem_reverse.mp hc
  have h2 := (List.dropWhile_sublist (l := (l.dropWhile isJsWhitespace).reverse)
    (p := isJsWhitespace)).mem h1
  have h3 := List.mem_reverse.mp h2
  exact (List.dropWhile_sublist (l := l) (p := isJsWhitespace)).mem h3

theorem tokenize_mem_all_not_sep {s t : String} (ht : t ∈ tokenize s) :
    ∀ c ∈ t.data, isSepChar c = false := by
  rw [tokenize_eq_specTokenize] at ht
  unfold specTokenize at ht
  rcases List.mem_map.mp ht with ⟨p, hp, rfl⟩
  have hp2 := (List.mem_filter.mp hp).1
  rcases List.mem_map.mp hp2 with ⟨q, hq, rfl⟩
  intro c hc
  exact specSplit_all_not_sep s.data q hq c (jsTrim_mem hc)

theorem dropWhile_all_false {q : Char → Bool} {l : List Char}
    (h : ∀ c ∈ l, q c = false) : l.dropWhile q = l := by
  cases l with
  | nil => rfl
  | cons a l => simp [List.dropWhile_cons, h a (List.mem_cons_self a l)]

theorem jsTrim_no_ws {l : List Char} (h : ∀ c ∈ l, isJsWhitespace c = false) :
    jsTrim l = l := by
  unfold jsTrim
  rw [dropWhile_all_false h, dropWhile_all_false, List.reverse_reverse]
  intro c hc
  exact h c (List.mem_reverse.mp hc)

theorem foldl_no_sep (cs : List Char) : ∀ (acc : List Char) (done : List (List Char)),
    (∀ c ∈ cs, isSepChar c = false) →
    List.foldl splitStep { done := done, mode := SplitMode.piece acc } cs
      = { done := done, mode := SplitMode.piece (cs.reverse ++ acc) } := by
  induction cs with
  | nil =>
    intro acc done _
    simp
  | cons c rest ih =>
    intro acc done h
    have hc := h c (List.mem_cons_self c rest)
    simp only [isSepChar, Bool.or_eq_false_iff, beq_eq_false_iff_ne, ne_eq] at hc
    rw [List.foldl_cons]
    have hstep : splitStep { done := done, mode := SplitMode.piece acc } c
        = { done := done, mode := SplitMode.piece (c :: acc) } := by
      simp [splitStep, hc.1, hc.2]
    rw [hstep, ih _ _ (fun x hx => h x (List.mem_cons_of_mem c hx))]
    simp

theorem string_mk_data (s : String) : String.mk s.data = s := rfl

theorem tokenize_token_singleton {t : String} (hne : t ≠ "")
    (hsep : ∀ c ∈ t.data, isSepChar c = false) : tokenize t = [t] := by
  have hdata : t.data ≠ [] := by
    intro h
    exact hne (String.ext (h.trans rfl))
  have hws : ∀ c ∈ t.data, isJsWhitespace c = false := by
    intro c hc
    have h1 := hsep c hc
    revert h1
    simp [isSepChar]
    intro h1 _
    exact h1
  unfold tokenize jsSplit
  rw [foldl_no_sep t.data [] [] hsep]
  simp [splitFinish, jsTrim_no_ws hws, hdata, string_mk_data]

/-- C3: the code's tokenization equals the reference definition modelled from
the spec's words (split on separator characters, trim each piece, drop empty
pieces) on every input — which makes it order-preserving, since the
reference emits pieces in reading order — it is idempotent in the sense that
re-tokenizing any produced token yields exactly that token back, and the
input "fever, cough   headache" yields exactly the tokens
["fever", "cough", "headache"]. -/
theorem tokenize_matches_reference :
    (∀ s : String, tokenize s = specTokenize s)
    ∧ (∀ s t : String, t ∈ tokenize s → tokenize t = [t])
    ∧ tokenize "fever, cough   headache" = ["fever", "cough", "headache"] := by
  refine ⟨tokenize_eq_specTokenize, ?_, by decide⟩
  intro s t ht
  exact tokenize_token_singleton (tokenize_mem_ne_empty ht) (tokenize_mem_all_not_sep ht)

/-- Witness for C3's idempotence component at the spec's example input. -/
theorem tokenize_matches_reference_witness : tokenize "cough" = ["cough"] :=
  tokenize_matches_reference.2.1 "fever, cough   headache" "cough" (by decide)
